import Mathlib

/-!
Shallow embedding of the `agentropic-messaging` crate: message envelope and
builder (`message.rs`, `builder.rs`), speech-act performatives
(`performative.rs`), the error enum (`error.rs`), mailboxes backed by tokio
unbounded mpsc channels (`mailbox.rs`), the router registry (`router.rs`) and
the request/reply helper (`protocols/request_reply.rs`).

Environmental effects are made explicit: `Uuid::new_v4()` and
`SystemTime::now()` become explicit `freshId` / `now` parameters; a tokio
unbounded channel becomes a `ChannelState` (pending queue plus the two
disconnection flags); the `RwLock<HashMap<..>>` registry becomes an
association list with `HashMap` insert/remove/get semantics, threaded through
each router operation as explicit state (lock acquisition is modelled as
always succeeding, i.e. the non-poisoned executions).
-/

/-- External opaque agent identity (`agentropic_core::AgentId`): only equality
and hashing are used, so it is modelled as `Nat`. -/
abbrev AgentId := Nat

/-- `MessageId(Uuid)`: opaque 128-bit identifier; modelled as a wrapped `Nat`
(generation is environmental and passed in explicitly where the code calls
`MessageId::new()`). -/
structure MessageId where
  val : Nat
deriving DecidableEq

/-- `enum Performative` from `performative.rs`: the eleven variants, with the
source's spelling (`CFP`, not a spelled-out call-for-proposal). -/
inductive Performative
  | Inform
  | Request
  | Query
  | Propose
  | Accept
  | Reject
  | Confirm
  | Disconfirm
  | Subscribe
  | CFP
  | Refuse
deriving DecidableEq

/-- The `Display` impl for `Performative` writes the `Debug` form, i.e. the
variant name exactly as spelled in the source. -/
def Performative.display : Performative → String
  | .Inform => "Inform"
  | .Request => "Request"
  | .Query => "Query"
  | .Propose => "Propose"
  | .Accept => "Accept"
  | .Reject => "Reject"
  | .Confirm => "Confirm"
  | .Disconfirm => "Disconfirm"
  | .Subscribe => "Subscribe"
  | .CFP => "CFP"
  | .Refuse => "Refuse"

/-- Enumeration of every `Performative` value, in source declaration order. -/
def allPerformatives : List Performative :=
  [.Inform, .Request, .Query, .Propose, .Accept, .Reject, .Confirm,
   .Disconfirm, .Subscribe, .CFP, .Refuse]

/-- `struct Message` from `message.rs`; `SystemTime` is modelled as `Nat`. -/
structure Message where
  id : MessageId
  sender : AgentId
  receiver : AgentId
  performative : Performative
  content : String
  conversation_id : Option String
  in_reply_to : Option MessageId
  timestamp : Nat
deriving DecidableEq

/-- `Message::new(sender, receiver, performative, content)`: the freshly drawn
id (`MessageId::new()`) and clock reading (`SystemTime::now()`) are explicit
parameters. -/
def Message.new (freshId : MessageId) (now : Nat) (sender receiver : AgentId)
    (performative : Performative) (content : String) : Message :=
  { id := freshId
    sender := sender
    receiver := receiver
    performative := performative
    content := content
    conversation_id := none
    in_reply_to := none
    timestamp := now }

/-- `Message::with_conversation_id`: consumes `self`, sets only
`conversation_id`. -/
def Message.with_conversation_id (m : Message) (idStr : String) : Message :=
  { m with conversation_id := some idStr }

/-- `Message::with_reply_to`: consumes `self`, sets only `in_reply_to`. -/
def Message.with_reply_to (m : Message) (rid : MessageId) : Message :=
  { m with in_reply_to := some rid }

/-- `enum MessagingError` from `error.rs`: exactly these four variants. -/
inductive MessagingError
  | AgentNotFound
  | SendFailed (reason : String)
  | LockError
  | Other (msg : String)
deriving DecidableEq

/-- The `thiserror`-derived `Display` strings of `MessagingError`. -/
def MessagingError.render : MessagingError → String
  | .AgentNotFound => "Agent not found"
  | .SendFailed r => "Send failed: " ++ r
  | .LockError => "Lock error"
  | .Other m => "Messaging error: " ++ m

/-- `struct MessageBuilder` from `builder.rs`. -/
structure MessageBuilder where
  sender : Option AgentId
  receiver : Option AgentId
  performative : Option Performative
  content : Option String
  conversation_id : Option String
  in_reply_to : Option MessageId
deriving DecidableEq

/-- `MessageBuilder::new()`. -/
def MessageBuilder.new : MessageBuilder :=
  { sender := none, receiver := none, performative := none, content := none,
    conversation_id := none, in_reply_to := none }

/-- the builder's `sender(..)` setter. -/
def MessageBuilder.set_sender (b : MessageBuilder) (s : AgentId) : MessageBuilder :=
  { b with sender := some s }

/-- the builder's `receiver(..)` setter. -/
def MessageBuilder.set_receiver (b : MessageBuilder) (r : AgentId) : MessageBuilder :=
  { b with receiver := some r }

/-- the builder's `performative(..)` setter. -/
def MessageBuilder.set_performative (b : MessageBuilder) (p : Performative) : MessageBuilder :=
  { b with performative := some p }

/-- the builder's `content(..)` setter. -/
def MessageBuilder.set_content (b : MessageBuilder) (c : String) : MessageBuilder :=
  { b with content := some c }

/-- the builder's `conversation_id(..)` setter. -/
def MessageBuilder.set_conversation_id (b : MessageBuilder) (c : String) : MessageBuilder :=
  { b with conversation_id := some c }

/-- the builder's `in_reply_to(..)` setter. -/
def MessageBuilder.set_in_reply_to (b : MessageBuilder) (r : MessageId) : MessageBuilder :=
  { b with in_reply_to := some r }

/-- `MessageBuilder::build(self)`: each required field missing short-circuits
with `MessagingError::Other("<field> required")` via `Option::ok_or` and `?`;
on success the optional fields are applied with `with_conversation_id` /
`with_reply_to`. The fresh id and clock reading consumed by `Message::new`
are explicit parameters. -/
def MessageBuilder.build (freshId : MessageId) (now : Nat) (b : MessageBuilder) :
    Except MessagingError Message :=
  match b.sender with
  | none => Except.error (MessagingError.Other "sender required")
  | some s =>
    match b.receiver with
    | none => Except.error (MessagingError.Other "receiver required")
    | some r =>
      match b.performative with
      | none => Except.error (MessagingError.Other "performative required")
      | some p =>
        match b.content with
        | none => Except.error (MessagingError.Other "content required")
        | some c =>
          let msg := Message.new freshId now s r p c
          let msg := match b.conversation_id with
            | some cid => msg.with_conversation_id cid
            | none => msg
          let msg := match b.in_reply_to with
            | some reply => msg.with_reply_to reply
            | none => msg
          Except.ok msg

/-- State of one tokio unbounded mpsc channel: the queue of sent-but-not-yet
received messages, whether the receiving half was dropped or closed (then
sends fail with "channel closed"), and whether every sending half was dropped
(then `recv` yields `None` once the queue is drained). -/
structure ChannelState where
  queue : List Message
  receiverDropped : Bool
  senderDropped : Bool
deriving DecidableEq

/-- A channel as freshly produced by `mpsc::unbounded_channel()`. -/
def ChannelState.fresh : ChannelState :=
  { queue := [], receiverDropped := false, senderDropped := false }

/-- `Mailbox::try_receive` (`self.receiver.try_recv().ok()`): pops the head if
one is queued; otherwise both `TryRecvError::Empty` and
`TryRecvError::Disconnected` are collapsed to `None` by `.ok()`. -/
def Mailbox.try_receive (c : ChannelState) : Option Message × ChannelState :=
  match c.queue with
  | m :: rest => (some m, { c with queue := rest })
  | [] => (none, c)

/-- `Mailbox::receive` / `UnboundedReceiver::recv().await`: yields
`some (some m)` when a message is queued, the closed indicator `some none`
when the queue is empty and every sender was dropped, and `none` when the
call would suspend (empty queue, channel still open). -/
def Mailbox.receive (c : ChannelState) : Option (Option Message) × ChannelState :=
  match c.queue with
  | m :: rest => (some (some m), { c with queue := rest })
  | [] => if c.senderDropped then (some none, c) else (none, c)

/-- Repeatedly `receive` up to `n` times, collecting the messages yielded;
stops early at a suspension or at the closed indicator. -/
def recvIter : ChannelState → Nat → List Message × ChannelState
  | c, 0 => ([], c)
  | c, n + 1 =>
    match Mailbox.receive c with
    | (some (some m), c1) =>
      let r := recvIter c1 n
      (m :: r.1, r.2)
    | _ => ([], c)

/-- Lookup in the `HashMap<AgentId, UnboundedSender<Message>>`, modelled as an
association list from agent id to channel index. -/
def mapGet (k : AgentId) (m : List (AgentId × Nat)) : Option Nat :=
  (m.find? (fun p => p.1 == k)).map (fun p => p.2)

/-- `HashMap::insert`: any existing binding of `k` is replaced (and its old
value, the old sender handle, is dropped by the caller). -/
def mapInsert (k : AgentId) (v : Nat) (m : List (AgentId × Nat)) :
    List (AgentId × Nat) :=
  m.filter (fun p => p.1 != k) ++ [(k, v)]

/-- `HashMap::remove`. -/
def mapRemove (k : AgentId) (m : List (AgentId × Nat)) :
    List (AgentId × Nat) :=
  m.filter (fun p => p.1 != k)

/-- State of a `Router`: the guarded registry plus the state of every channel
ever created by `register` (a registry value is an index into `channels`;
receiver handles returned to agents are these indices as well). -/
structure RouterState where
  registry : List (AgentId × Nat)
  channels : List ChannelState
deriving DecidableEq

/-- `Router::new()`. -/
def Router.new : RouterState :=
  { registry := [], channels := [] }

/-- The channel a given index refers to. -/
def RouterState.channel (s : RouterState) (i : Nat) : ChannelState :=
  s.channels.getD i ChannelState.fresh

/-- Replace the channel at an index. -/
def RouterState.setChannel (s : RouterState) (i : Nat) (c : ChannelState) :
    RouterState :=
  { s with channels := s.channels.set i c }

/-- Dropping the router's (sole) `UnboundedSender` for a channel: the channel
becomes closed for receiving once drained. -/
def RouterState.dropSender (s : RouterState) (i : Nat) : RouterState :=
  s.setChannel i { s.channel i with senderDropped := true }

/-- `Router::register`: creates a fresh unbounded channel, then
`senders.insert(agent_id, sender)` — an existing binding is silently
replaced, and the replaced old sender handle is dropped (closing the old
channel). Returns the new receiver handle (the fresh channel's index). -/
def Router.register (a : AgentId) (s : RouterState) :
    Except MessagingError Nat × RouterState :=
  let idx := s.channels.length
  let s1 : RouterState := { s with channels := s.channels ++ [ChannelState.fresh] }
  let s2 := match mapGet a s.registry with
    | some old => s1.dropSender old
    | none => s1
  (Except.ok idx, { s2 with registry := mapInsert a idx s2.registry })

/-- `Router::unregister`: `senders.remove(agent_id)`; the removed sender
handle (if any) is dropped. Always returns `Ok(())` (lock poisoning aside). -/
def Router.unregister (a : AgentId) (s : RouterState) :
    Except MessagingError Unit × RouterState :=
  match mapGet a s.registry with
  | some old =>
    (Except.ok (), { s.dropSender old with registry := mapRemove a s.registry })
  | none =>
    (Except.ok (), { s with registry := mapRemove a s.registry })

/-- `Router::send`: resolves `message.receiver` in the registry
(`AgentNotFound` when absent), then `UnboundedSender::send`, which enqueues
unless the receiving half was dropped or closed (then `SendFailed` with the
`SendError` display text "channel closed"). -/
def Router.send (m : Message) (s : RouterState) :
    Except MessagingError Unit × RouterState :=
  match mapGet m.receiver s.registry with
  | none => (Except.error MessagingError.AgentNotFound, s)
  | some i =>
    let c := s.channel i
    if c.receiverDropped then
      (Except.error (MessagingError.SendFailed "channel closed"), s)
    else
      (Except.ok (), s.setChannel i { c with queue := c.queue ++ [m] })

/-- `Router::is_registered`. -/
def Router.is_registered (a : AgentId) (s : RouterState) : Bool :=
  (mapGet a s.registry).isSome

/-- `RequestReply::send_request(self, msg)`: the body is
`self.router.send(msg)?` followed by
`Err(MessagingError::Other("request-reply not yet implemented"))`; the
`timeout` field of `RequestReply` is never read. -/
def RequestReply.send_request (timeout : Nat) (m : Message) (s : RouterState) :
    Except MessagingError Message × RouterState :=
  match Router.send m s with
  | (Except.ok _, s1) =>
    (Except.error (MessagingError.Other "request-reply not yet implemented"), s1)
  | (Except.error e, s1) => (Except.error e, s1)

/-- Fold a list of `Router::send` calls over the router state. -/
def sendAll (ms : List Message) (s : RouterState) : RouterState :=
  ms.foldl (fun st m => (Router.send m st).2) s

/-- The sub-sequence of a burst of sends that `Router::send` accepts
(returns `Ok`) for receiver `a`, in send order. -/
def acceptedFor (a : AgentId) : List Message → RouterState → List Message
  | [], _ => []
  | m :: rest, s =>
    match Router.send m s with
    | (Except.ok _, s1) =>
      (if m.receiver == a then [m] else []) ++ acceptedFor a rest s1
    | (Except.error _, s1) => acceptedFor a rest s1

/-- Concrete message fixture: agent 2 informs agent 1. -/
def mA : Message :=
  { id := ⟨10⟩, sender := 2, receiver := 1,
    performative := Performative.Inform, content := "x",
    conversation_id := none, in_reply_to := none, timestamp := 0 }

/-- Second fixture from the same sender to the same receiver. -/
def mB : Message :=
  { mA with id := ⟨11⟩, content := "y" }

/-- Fixture addressed to a never-registered agent. -/
def mOther : Message :=
  { mA with id := ⟨12⟩, receiver := 3 }

/-- Router state with agent 1 registered to the fresh channel 0. -/
def sWit : RouterState :=
  { registry := [(1, 0)], channels := [ChannelState.fresh] }

/-- Router state where agent 1's channel already holds two accepted
messages. -/
def sQueued : RouterState :=
  { registry := [(1, 0)],
    channels := [{ queue := [mA, mB], receiverDropped := false,
                   senderDropped := false }] }

theorem getD_set_self (l : List ChannelState) (i : Nat) (c d : ChannelState)
    (h : i < l.length) : (l.set i c).getD i d = c := by
  induction l generalizing i with
  | nil => simp at h
  | cons x xs ih =>
    cases i with
    | zero => rfl
    | succ n =>
      simp only [List.set, List.getD_cons_succ]
      exact ih n (by simpa using h)

theorem getD_set_ne (l : List ChannelState) (i j : Nat) (c d : ChannelState)
    (h : i ≠ j) : (l.set i c).getD j d = l.getD j d := by
  induction l generalizing i j with
  | nil => rfl
  | cons x xs ih =>
    cases i with
    | zero =>
      cases j with
      | zero => exact absurd rfl h
      | succ m => rfl
    | succ n =>
      cases j with
      | zero => rfl
      | succ m =>
        simp only [List.set, List.getD_cons_succ]
        exact ih n m (fun hnm => h (by rw [hnm]))

theorem getD_append_left (l l2 : List ChannelState) (i : Nat) (d : ChannelState)
    (h : i < l.length) : (l ++ l2).getD i d = l.getD i d := by
  induction l generalizing i with
  | nil => simp at h
  | cons x xs ih =>
    cases i with
    | zero => rfl
    | succ n =>
      simp only [List.cons_append, List.getD_cons_succ]
      exact ih n (by simpa using h)

theorem getD_append_length (l : List ChannelState) (c d : ChannelState) :
    (l ++ [c]).getD l.length d = c := by
  induction l with
  | nil => rfl
  | cons x xs ih => simpa using ih

theorem mapGet_insert_self (m : List (AgentId × Nat)) (a : AgentId) (v : Nat) :
    mapGet a (mapInsert a v m) = some v := by
  induction m with
  | nil => simp [mapGet, mapInsert]
  | cons p rest ih =>
    by_cases h : p.1 = a
    · simpa [mapInsert, List.filter_cons, h] using ih
    · simpa [mapInsert, List.filter_cons, mapGet, List.find?_cons, h] using ih

theorem mapRemove_of_absent (m : List (AgentId × Nat)) (a : AgentId)
    (h : mapGet a m = none) : mapRemove a m = m := by
  have hf : m.find? (fun p => p.1 == a) = none := by
    cases hfind : m.find? (fun p => p.1 == a) with
    | none => rfl
    | some p => simp [mapGet, hfind] at h
  rw [List.find?_eq_none] at hf
  refine List.filter_eq_self.mpr ?_
  intro x hx
  have := hf x hx
  simpa [bne] using this

theorem mapGet_remove_self (m : List (AgentId × Nat)) (a : AgentId) :
    mapGet a (mapRemove a m) = none := by
  have hf : (mapRemove a m).find? (fun p => p.1 == a) = none := by
    rw [List.find?_eq_none]
    intro x hx
    have hmem := List.mem_filter.mp hx
    simpa [bne] using hmem.2
  simp [mapGet, hf]

theorem mapGet_entry (m : List (AgentId × Nat)) (b : AgentId) (j : Nat)
    (h : mapGet b m = some j) :
    ∃ p ∈ m, p.1 = b ∧ p.2 = j := by
  cases hfind : m.find? (fun p => p.1 == b) with
  | none => simp [mapGet, hfind] at h
  | some p =>
    have hpj : p.2 = j := by simpa [mapGet, hfind] using h
    refine ⟨p, List.mem_of_find?_eq_some hfind, ?_, hpj⟩
    have := List.find?_some hfind
    simpa using this

theorem send_registry (m : Message) (s : RouterState) :
    (Router.send m s).2.registry = s.registry := by
  cases h : mapGet m.receiver s.registry with
  | none => simp [Router.send, h]
  | some j =>
    by_cases hd : (s.channel j).receiverDropped
    · simp [Router.send, h, hd]
    · simp [Router.send, h, hd, RouterState.setChannel]

theorem send_channels_length (m : Message) (s : RouterState) :
    (Router.send m s).2.channels.length = s.channels.length := by
  cases h : mapGet m.receiver s.registry with
  | none => simp [Router.send, h]
  | some j =>
    by_cases hd : (s.channel j).receiverDropped
    · simp [Router.send, h, hd]
    · simp [Router.send, h, hd, RouterState.setChannel]

theorem send_channel_ne (m : Message) (s : RouterState) (i : Nat)
    (hne : mapGet m.receiver s.registry ≠ some i) :
    (Router.send m s).2.channel i = s.channel i := by
  cases h : mapGet m.receiver s.registry with
  | none => simp [Router.send, h]
  | some j =>
    have hji : j ≠ i := fun e => hne (by rw [h, e])
    cases hd : (s.channel j).receiverDropped with
    | true => simp [Router.send, h, hd]
    | false =>
      have h2 : (Router.send m s).2 =
          s.setChannel j
            { s.channel j with queue := (s.channel j).queue ++ [m] } := by
        simp [Router.send, h, hd, RouterState.setChannel]
      rw [h2]
      simp only [RouterState.setChannel, RouterState.channel]
      exact getD_set_ne _ _ _ _ _ hji

theorem send_accepts (m : Message) (s : RouterState) (i : Nat)
    (hreg : mapGet m.receiver s.registry = some i)
    (hrd : (s.channel i).receiverDropped = false)
    (hlt : i < s.channels.length) :
    (Router.send m s).1 = Except.ok () ∧
    (Router.send m s).2.channel i =
      { s.channel i with queue := (s.channel i).queue ++ [m] } := by
  constructor
  · simp [Router.send, hreg, hrd]
  · have h2 : (Router.send m s).2 =
        s.setChannel i
          { s.channel i with queue := (s.channel i).queue ++ [m] } := by
      simp [Router.send, hreg, hrd, RouterState.setChannel]
    rw [h2]
    simp only [RouterState.setChannel, RouterState.channel]
    exact getD_set_self _ _ _ _ hlt

theorem send_rejects_closed (m : Message) (s : RouterState) (i : Nat)
    (hreg : mapGet m.receiver s.registry = some i)
    (hrd : (s.channel i).receiverDropped = true) :
    Router.send m s =
      (Except.error (MessagingError.SendFailed "channel closed"), s) := by
  simp [Router.send, hreg, hrd]

theorem sendAll_channel (a : AgentId) (i : Nat) :
    ∀ (ms : List Message) (s : RouterState),
    mapGet a s.registry = some i →
    (∀ p ∈ s.registry, p.2 = i → p.1 = a) →
    i < s.channels.length →
    (sendAll ms s).channel i =
      { s.channel i with
        queue := (s.channel i).queue ++ acceptedFor a ms s } := by
  intro ms
  induction ms with
  | nil =>
    intro s _ _ _
    simp [sendAll, acceptedFor]
  | cons m rest ih =>
    intro s hreg hinj hlt
    have hstep : sendAll (m :: rest) s = sendAll rest (Router.send m s).2 := by
      simp [sendAll]
    have hreg1 : mapGet a (Router.send m s).2.registry = some i := by
      rw [send_registry]; exact hreg
    have hinj1 : ∀ p ∈ (Router.send m s).2.registry, p.2 = i → p.1 = a := by
      rw [send_registry]; exact hinj
    have hlt1 : i < (Router.send m s).2.channels.length := by
      rw [send_channels_length]; exact hlt
    by_cases hra : m.receiver = a
    · -- the send targets channel i
      have hgi : mapGet m.receiver s.registry = some i := by rw [hra]; exact hreg
      by_cases hrd : (s.channel i).receiverDropped
      · -- rejected: state unchanged, message not accepted
        have hsend := send_rejects_closed m s i hgi hrd
        have hacc : acceptedFor a (m :: rest) s = acceptedFor a rest s := by
          simp [acceptedFor, hsend]
        rw [hstep, hsend]
        rw [hacc]
        exact ih s hreg hinj hlt
      · -- accepted: appended to channel i's queue
        have hrd' : (s.channel i).receiverDropped = false := by
          simpa using hrd
        obtain ⟨hok, hch⟩ := send_accepts m s i hgi hrd' hlt
        have hacc : acceptedFor a (m :: rest) s =
            m :: acceptedFor a rest (Router.send m s).2 := by
          cases hs : Router.send m s with
          | mk r s1 =>
            have : r = Except.ok () := by rw [← hok, hs]
            subst this
            simp [acceptedFor, hs, hra]
        rw [hstep, hacc, ih (Router.send m s).2 hreg1 hinj1 hlt1, hch]
        simp
    · -- the send targets some other agent: channel i untouched
      have hne : mapGet m.receiver s.registry ≠ some i := by
        intro he
        obtain ⟨p, hmem, hp1, hp2⟩ := mapGet_entry _ _ _ he
        exact hra (hp1 ▸ hinj p hmem hp2)
      have hch := send_channel_ne m s i hne
      have hacc : acceptedFor a (m :: rest) s =
          acceptedFor a rest (Router.send m s).2 := by
        cases hs : Router.send m s with
        | mk r s1 =>
          cases r with
          | error e => simp [acceptedFor, hs]
          | ok u =>
            have hba : (m.receiver == a) = false := by
              simpa using hra
            simp [acceptedFor, hs, hba]
      rw [hstep, hacc, ih (Router.send m s).2 hreg1 hinj1 hlt1, hch]

theorem acceptedFor_sublist (a : AgentId) :
    ∀ (ms : List Message) (s : RouterState),
      List.Sublist (acceptedFor a ms s) ms := by
  intro ms
  induction ms with
  | nil => intro s; exact List.nil_sublist []
  | cons m rest ih =>
    intro s
    cases hs : Router.send m s with
    | mk r s1 =>
      cases r with
      | error e =>
        have : acceptedFor a (m :: rest) s = acceptedFor a rest s1 := by
          simp [acceptedFor, hs]
        rw [this]
        exact List.Sublist.cons m (ih s1)
      | ok u =>
        by_cases hra : m.receiver = a
        · have : acceptedFor a (m :: rest) s = m :: acceptedFor a rest s1 := by
            simp [acceptedFor, hs, hra]
          rw [this]
          exact List.Sublist.cons₂ m (ih s1)
        · have hba : (m.receiver == a) = false := by simpa using hra
          have : acceptedFor a (m :: rest) s = acceptedFor a rest s1 := by
            simp [acceptedFor, hs, hba]
          rw [this]
          exact List.Sublist.cons m (ih s1)

theorem recvIter_drain (q : List Message) (rd sd : Bool) :
    recvIter ⟨q, rd, sd⟩ q.length = (q, ⟨[], rd, sd⟩) := by
  induction q with
  | nil => rfl
  | cons m rest ih =>
    simp only [List.length_cons, recvIter, Mailbox.receive, ih]

theorem receive_closed_empty (rd : Bool) :
    Mailbox.receive ⟨[], rd, true⟩ = (some none, ⟨[], rd, true⟩) := rfl

theorem unregister_registry (a : AgentId) (s : RouterState) :
    (Router.unregister a s).2.registry = mapRemove a s.registry := by
  cases hg : mapGet a s.registry with
  | none => simp [Router.unregister, hg]
  | some j =>
    simp [Router.unregister, hg, RouterState.dropSender, RouterState.setChannel]

theorem unregister_fst (a : AgentId) (s : RouterState) :
    (Router.unregister a s).1 = Except.ok () := by
  cases hg : mapGet a s.registry with
  | none => simp [Router.unregister, hg]
  | some j => simp [Router.unregister, hg]

theorem unregister_channel_self (a : AgentId) (i : Nat) (s : RouterState)
    (hreg : mapGet a s.registry = some i) (hlt : i < s.channels.length) :
    (Router.unregister a s).2.channel i =
      { s.channel i with senderDropped := true } := by
  simp only [Router.unregister, hreg, RouterState.dropSender,
    RouterState.setChannel, RouterState.channel]
  exact getD_set_self _ _ _ _ hlt

theorem register_fst (a : AgentId) (s : RouterState) :
    (Router.register a s).1 = Except.ok s.channels.length := by
  cases hg : mapGet a s.registry with
  | none => simp [Router.register, hg]
  | some j => simp [Router.register, hg]

theorem register_registry (a : AgentId) (s : RouterState) :
    (Router.register a s).2.registry =
      mapInsert a s.channels.length s.registry := by
  cases hg : mapGet a s.registry with
  | none => simp [Router.register, hg]
  | some j =>
    simp [Router.register, hg, RouterState.dropSender, RouterState.setChannel]

theorem register_channels_length (a : AgentId) (s : RouterState) :
    (Router.register a s).2.channels.length = s.channels.length + 1 := by
  cases hg : mapGet a s.registry with
  | none => simp [Router.register, hg]
  | some j =>
    simp [Router.register, hg, RouterState.dropSender, RouterState.setChannel]

/-- C7: once constructed, a `Message`'s id, sender, receiver, performative,
content and timestamp are exactly the construction-time values, and
`with_conversation_id` / `with_reply_to` set only the `conversation_id`
(respectively `in_reply_to`) field, leaving every other field unchanged. -/
theorem message_construction_and_update_frame
    (fid : MessageId) (t : Nat) (sdr rcv : AgentId) (p : Performative)
    (c : String) :
    ((Message.new fid t sdr rcv p c).id = fid ∧
     (Message.new fid t sdr rcv p c).sender = sdr ∧
     (Message.new fid t sdr rcv p c).receiver = rcv ∧
     (Message.new fid t sdr rcv p c).performative = p ∧
     (Message.new fid t sdr rcv p c).content = c ∧
     (Message.new fid t sdr rcv p c).timestamp = t ∧
     (Message.new fid t sdr rcv p c).conversation_id = none ∧
     (Message.new fid t sdr rcv p c).in_reply_to = none) ∧
    (∀ (m : Message) (cid : String),
      (m.with_conversation_id cid).conversation_id = some cid ∧
      (m.with_conversation_id cid).id = m.id ∧
      (m.with_conversation_id cid).sender = m.sender ∧
      (m.with_conversation_id cid).receiver = m.receiver ∧
      (m.with_conversation_id cid).performative = m.performative ∧
      (m.with_conversation_id cid).content = m.content ∧
      (m.with_conversation_id cid).in_reply_to = m.in_reply_to ∧
      (m.with_conversation_id cid).timestamp = m.timestamp) ∧
    (∀ (m : Message) (rid : MessageId),
      (m.with_reply_to rid).in_reply_to = some rid ∧
      (m.with_reply_to rid).id = m.id ∧
      (m.with_reply_to rid).sender = m.sender ∧
      (m.with_reply_to rid).receiver = m.receiver ∧
      (m.with_reply_to rid).performative = m.performative ∧
      (m.with_reply_to rid).content = m.content ∧
      (m.with_reply_to rid).conversation_id = m.conversation_id ∧
      (m.with_reply_to rid).timestamp = m.timestamp) :=
  ⟨⟨rfl, rfl, rfl, rfl, rfl, rfl, rfl, rfl⟩,
   fun _ _ => ⟨rfl, rfl, rfl, rfl, rfl, rfl, rfl, rfl⟩,
   fun _ _ => ⟨rfl, rfl, rfl, rfl, rfl, rfl, rfl, rfl⟩⟩

/-- C8 counterexample: the eleventh performative is spelled `CFP` in the
source, and its observable `Display` form is the string "CFP"; no
performative value displays as "CallForProposal". -/
theorem performative_cfp_not_call_for_proposal :
    Performative.display Performative.CFP = "CFP" ∧
    "CFP" ≠ "CallForProposal" ∧
    (allPerformatives.all
      (fun p => p.display != "CallForProposal")) = true :=
  ⟨rfl, by decide, by decide⟩

/-- C8 (amended): `Performative` is a closed, compile-time-fixed set of
exactly eleven speech-act kinds, displayed as Inform, Request, Query,
Propose, Accept, Reject, Confirm, Disconfirm, Subscribe, CFP (the source's
spelling of call-for-proposal) and Refuse; no other value is possible. -/
theorem performative_closed_set_of_eleven :
    (∀ p : Performative, p ∈ allPerformatives) ∧
    allPerformatives.length = 11 ∧
    allPerformatives.Nodup ∧
    allPerformatives.map Performative.display =
      ["Inform", "Request", "Query", "Propose", "Accept", "Reject",
       "Confirm", "Disconfirm", "Subscribe", "CFP", "Refuse"] := by
  refine ⟨?_, rfl, by decide, rfl⟩
  intro p
  cases p <;> simp [allPerformatives]

/-- C9: with an empty queue, the non-blocking `Mailbox::try_receive` returns
`None` whatever the disconnection flags are — an empty open mailbox and a
closed one are indistinguishable at this interface. -/
theorem try_receive_conflates_empty_and_closed (rd sd rd2 sd2 : Bool) :
    Mailbox.try_receive ⟨[], rd, sd⟩ = (none, ⟨[], rd, sd⟩) ∧
    (Mailbox.try_receive ⟨[], rd, sd⟩).1 =
      (Mailbox.try_receive ⟨[], rd2, sd2⟩).1 :=
  ⟨rfl, rfl⟩

/-- C4 counterexample: `build()` on an empty builder fails with the catch-all
`MessagingError::Other("sender required")` — the error enum has no
`ValidationError` variant, and the error renders as
"Messaging error: sender required". -/
theorem build_missing_sender_uses_catch_all_variant :
    MessageBuilder.build ⟨0⟩ 0 MessageBuilder.new =
      Except.error (MessagingError.Other "sender required") ∧
    (MessagingError.Other "sender required").render =
      "Messaging error: sender required" :=
  ⟨rfl, rfl⟩

/-- C4 (amended): for every builder state missing a required field,
`build()` returns an error naming that field in its message text — via the
catch-all variant `Other("<field> required")`, there being no dedicated
`ValidationError` variant — and produces no `Message`; in particular
`build()` without a sender fails with `Other "sender required"`. The error
is returned to the caller (`build` is total). -/
theorem build_missing_required_field_errors
    (b : MessageBuilder) (fid : MessageId) (t : Nat) :
    (b.sender = none →
      MessageBuilder.build fid t b =
        Except.error (MessagingError.Other "sender required")) ∧
    (∀ s, b.sender = some s → b.receiver = none →
      MessageBuilder.build fid t b =
        Except.error (MessagingError.Other "receiver required")) ∧
    (∀ s r, b.sender = some s → b.receiver = some r →
      b.performative = none →
      MessageBuilder.build fid t b =
        Except.error (MessagingError.Other "performative required")) ∧
    (∀ s r p, b.sender = some s → b.receiver = some r →
      b.performative = some p → b.content = none →
      MessageBuilder.build fid t b =
        Except.error (MessagingError.Other "content required")) := by
  refine ⟨?_, ?_, ?_, ?_⟩
  · intro h
    simp [MessageBuilder.build, h]
  · intro s hs hr
    simp [MessageBuilder.build, hs, hr]
  · intro s r hs hr hp
    simp [MessageBuilder.build, hs, hr, hp]
  · intro s r p hs hr hp hc
    simp [MessageBuilder.build, hs, hr, hp, hc]

/-- Witness for the amended C4 theorem at the empty builder. -/
theorem build_missing_required_field_errors_witness :
    MessageBuilder.build ⟨1⟩ 5 MessageBuilder.new =
      Except.error (MessagingError.Other "sender required") :=
  (build_missing_required_field_errors MessageBuilder.new ⟨1⟩ 5).1 rfl

/-- C2: `Router::send` fails with `AgentNotFound` exactly when the message's
receiver has no current registry entry, and in that case the router state —
every mailbox included — is unchanged: the message is queued nowhere. -/
theorem send_agent_not_found_iff (m : Message) (s : RouterState) :
    ((Router.send m s).1 = Except.error MessagingError.AgentNotFound ↔
      mapGet m.receiver s.registry = none) ∧
    (mapGet m.receiver s.registry = none → (Router.send m s).2 = s) := by
  constructor
  · constructor
    · intro h
      cases hg : mapGet m.receiver s.registry with
      | none => rfl
      | some j =>
        cases hd : (s.channel j).receiverDropped with
        | true => simp [Router.send, hg, hd] at h
        | false => simp [Router.send, hg, hd] at h
    · intro hg
      simp [Router.send, hg]
  · intro hg
    simp [Router.send, hg]

/-- Witness for C2 at a concrete unregistered receiver. -/
theorem send_agent_not_found_iff_witness :
    (Router.send mOther sWit).1 =
      Except.error MessagingError.AgentNotFound ∧
    (Router.send mOther sWit).2 = sWit :=
  ⟨(send_agent_not_found_iff mOther sWit).1.mpr (by decide),
   (send_agent_not_found_iff mOther sWit).2 (by decide)⟩

/-- C5 (code bug): `send_request` is a stub — for every timeout, message and
router state it returns an error (never a reply `Message`), and for a
registered receiver that never replies the error is
`Other "request-reply not yet implemented"`, not a timeout; no correlation
tracker exists in the code. -/
theorem send_request_stub_never_times_out :
    (∀ (t : Nat) (m : Message) (s : RouterState),
      ∃ e, (RequestReply.send_request t m s).1 = Except.error e) ∧
    (RequestReply.send_request 500 mA sWit).1 =
      Except.error
        (MessagingError.Other "request-reply not yet implemented") := by
  constructor
  · intro t m s
    cases hs : Router.send m s with
    | mk r s1 =>
      cases r with
      | ok u =>
        exact ⟨MessagingError.Other "request-reply not yet implemented",
          by simp [RequestReply.send_request, hs]⟩
      | error e =>
        exact ⟨e, by simp [RequestReply.send_request, hs]⟩
  · rfl

/-- C1: for a registered agent `a` (channel `i`, and no other id mapped to
that channel), a burst of sends leaves exactly the accepted messages for `a`
appended to its mailbox queue in send order; draining the mailbox by
repeated `receive` yields each exactly once in that order, and the accepted
messages from any single sender form an order-preserving subsequence of the
burst. -/
theorem accepted_messages_received_exactly_once_in_order
    (a : AgentId) (i : Nat) (ms : List Message) (s : RouterState)
    (hreg : mapGet a s.registry = some i)
    (hinj : ∀ p ∈ s.registry, p.2 = i → p.1 = a)
    (hlt : i < s.channels.length) :
    ((sendAll ms s).channel i).queue =
      (s.channel i).queue ++ acceptedFor a ms s ∧
    (recvIter ((sendAll ms s).channel i)
        ((s.channel i).queue ++ acceptedFor a ms s).length).1 =
      (s.channel i).queue ++ acceptedFor a ms s ∧
    List.Sublist (acceptedFor a ms s) ms ∧
    (∀ src : AgentId,
      List.Sublist
        ((acceptedFor a ms s).filter (fun m => m.sender == src))
        (ms.filter (fun m => m.sender == src))) := by
  have hch := sendAll_channel a i ms s hreg hinj hlt
  refine ⟨?_, ?_, acceptedFor_sublist a ms s, ?_⟩
  · rw [hch]
  · rw [hch]
    cases hc : s.channel i with
    | mk q rd sd =>
      simpa using congrArg Prod.fst
        (recvIter_drain (q ++ acceptedFor a ms s) rd sd)
  · intro src
    exact List.Sublist.filter _ (acceptedFor_sublist a ms s)

/-- Witness for C1: two messages from sender 2 accepted for agent 1 land in
its mailbox in send order. -/
theorem accepted_messages_received_witness :
    ((sendAll [mA, mB] sWit).channel 0).queue =
      (sWit.channel 0).queue ++ acceptedFor 1 [mA, mB] sWit ∧
    List.Sublist (acceptedFor 1 [mA, mB] sWit) [mA, mB] :=
  ⟨(accepted_messages_received_exactly_once_in_order 1 0 [mA, mB] sWit
      (by decide) (by decide) (by decide)).1,
   (accepted_messages_received_exactly_once_in_order 1 0 [mA, mB] sWit
      (by decide) (by decide) (by decide)).2.2.1⟩

/-- C3 counterexample: registering agent 1 twice in a row succeeds both
times: the second call returns the fresh receiver handle 1 instead of any
error, remaps agent 1 to the new channel, and drops the old channel's
sender — the prior registration is silently replaced. -/
theorem register_twice_replaces_cex :
    (Router.register 1 (Router.register 1 Router.new).2).1 = Except.ok 1 ∧
    mapGet 1
      (Router.register 1 (Router.register 1 Router.new).2).2.registry =
      some 1 ∧
    ((Router.register 1 (Router.register 1 Router.new).2).2.channel
        0).senderDropped = true :=
  ⟨rfl, rfl, rfl⟩

/-- C3 (amended): `register(A)` a second time without an intervening
unregister succeeds and silently replaces the prior registration: it
returns `Ok` with a fresh receiver handle, remaps `A` to the new mailbox,
and drops the old mailbox's sender (the old receiver handle sees
end-of-stream once drained). There is no `RegistrationConflict` variant. -/
theorem register_twice_replaces (a : AgentId) (s : RouterState) :
    (Router.register a (Router.register a s).2).1 =
      Except.ok (s.channels.length + 1) ∧
    mapGet a (Router.register a (Router.register a s).2).2.registry =
      some (s.channels.length + 1) ∧
    ((Router.register a (Router.register a s).2).2.channel
        s.channels.length).senderDropped = true := by
  have hlen : (Router.register a s).2.channels.length =
      s.channels.length + 1 := register_channels_length a s
  have hreg1 : mapGet a (Router.register a s).2.registry =
      some s.channels.length := by
    rw [register_registry]
    exact mapGet_insert_self _ _ _
  refine ⟨?_, ?_, ?_⟩
  · rw [register_fst, hlen]
  · rw [register_registry, hlen]
    exact mapGet_insert_self _ _ _
  · generalize hS : (Router.register a s).2 = t at hlen hreg1 ⊢
    have hlt : s.channels.length <
        (t.channels ++ [ChannelState.fresh]).length := by
      simp only [List.length_append, List.length_cons, List.length_nil, hlen]
      omega
    simp only [Router.register, hreg1, RouterState.dropSender,
      RouterState.setChannel, RouterState.channel]
    rw [getD_set_self _ _ _ _ hlt]

/-- C6: `Router::unregister` is idempotent: it always returns `Ok(())`; on a
missing id it is a pure no-op leaving the whole state (registry included)
unchanged; and unregistering twice leaves the same state as once. -/
theorem unregister_idempotent (a : AgentId) (s : RouterState) :
    (Router.unregister a s).1 = Except.ok () ∧
    (mapGet a s.registry = none →
      Router.unregister a s = (Except.ok (), s)) ∧
    (Router.unregister a (Router.unregister a s).2).2 =
      (Router.unregister a s).2 := by
  refine ⟨unregister_fst a s, ?_, ?_⟩
  · intro hg
    simp [Router.unregister, hg, mapRemove_of_absent _ _ hg]
  · have hg1 : mapGet a (Router.unregister a s).2.registry = none := by
      rw [unregister_registry]
      exact mapGet_remove_self _ _
    generalize hS : (Router.unregister a s).2 = t at hg1 ⊢
    have h2 : Router.unregister a t = (Except.ok (), t) := by
      simp [Router.unregister, hg1, mapRemove_of_absent _ _ hg1]
    rw [h2]

/-- Witness for C6 at a concrete never-registered id. -/
theorem unregister_idempotent_witness :
    Router.unregister 5 sWit = (Except.ok (), sWit) :=
  (unregister_idempotent 5 sWit).2.1 (by decide)

/-- C10: after `unregister(A)`, messages already accepted into A's mailbox
survive: the queue is unchanged, the channel is marked sender-dropped,
draining by repeated `receive` yields every queued message in order, and
only then does `receive` return the closed indicator `None`. -/
theorem unregister_keeps_queued_then_closed
    (a : AgentId) (i : Nat) (s : RouterState)
    (hreg : mapGet a s.registry = some i)
    (hlt : i < s.channels.length) :
    ((Router.unregister a s).2.channel i).queue = (s.channel i).queue ∧
    ((Router.unregister a s).2.channel i).senderDropped = true ∧
    (recvIter ((Router.unregister a s).2.channel i)
        (s.channel i).queue.length).1 = (s.channel i).queue ∧
    (Mailbox.receive
        (recvIter ((Router.unregister a s).2.channel i)
          (s.channel i).queue.length).2).1 = some none := by
  have hch := unregister_channel_self a i s hreg hlt
  rw [hch]
  cases hc : s.channel i with
  | mk q rd sd =>
    refine ⟨rfl, rfl, ?_, ?_⟩
    · simpa using congrArg Prod.fst (recvIter_drain q rd true)
    · have hdrain := recvIter_drain q rd true
      have h2 : (recvIter ({ ChannelState.mk q rd sd with
          senderDropped := true }) q.length).2 =
          ChannelState.mk [] rd true := by
        simpa using congrArg Prod.snd hdrain
      rw [h2]
      rfl

/-- Witness for C10: two queued messages survive unregistration, drain in
order, and then the closed indicator appears. -/
theorem unregister_keeps_queued_witness :
    (recvIter ((Router.unregister 1 sQueued).2.channel 0)
        (sQueued.channel 0).queue.length).1 = (sQueued.channel 0).queue ∧
    (Mailbox.receive
        (recvIter ((Router.unregister 1 sQueued).2.channel 0)
          (sQueued.channel 0).queue.length).2).1 = some none :=
  ⟨(unregister_keeps_queued_then_closed 1 0 sQueued
      (by decide) (by decide)).2.2.1,
   (unregister_keeps_queued_then_closed 1 0 sQueued
      (by decide) (by decide)).2.2.2⟩
